import Mathlib

/-!
Verification development for the Aadhaar Enrollment dashboard script
(src/App.py).  The script loads a primary fact table (parquet) and a
secondary per-district priority table (csv), normalizes them (column
case-folding, state-name stripping, whitelist filtering against the 36
canonical Indian regions, derivation of a map alias column), lets the
user pick a date range, a set of states and a set of districts in the
sidebar, applies those global filters, and renders one of five chart
views.

The shallow embedding below follows App.py line by line:

  * string values are Lean String; dates are modelled as Int ordinals
    (pandas to_datetime produces a totally ordered date type and the
    script only ever compares dates, takes min and max);
  * a pandas DataFrame is a column-name list plus a typed row list;
  * the try/except around each file read is modelled by an Option input:
    some rows means the read succeeded, none means it raised and the
    except branch installed the fallback table (App.py lines 45 to 54);
  * Python name binding of selected_date_range, which is conditional on
    the fact table being nonempty (line 95), is modelled by an Option:
    none means the name was never assigned, and reading it (line 125)
    then raises NameError, modelled by Except.error.
-/

/-- Model of Python str.strip (App.py line 75): remove whitespace from
both ends of the string. -/
def pyStrip (s : String) : String :=
  String.mk (((s.toList.dropWhile Char.isWhitespace).reverse.dropWhile
    Char.isWhitespace).reverse)

/-- Code-point lexicographic order on character lists, as used by Python
sorted() on strings. -/
def charListLe : List Char → List Char → Bool
  | [], _ => true
  | _ :: _, [] => false
  | a :: as, b :: bs =>
    if a.toNat < b.toNat then true
    else if b.toNat < a.toNat then false
    else charListLe as bs

/-- Code-point lexicographic order on strings. -/
def strLe (a b : String) : Bool :=
  charListLe a.toList b.toList

/-- Insertion step of the sort modelling Python sorted(). -/
def insertStr (a : String) : List String → List String
  | [] => [a]
  | b :: l => if strLe a b then a :: b :: l else b :: insertStr a l

/-- Model of Python sorted() on a list of strings (App.py lines 101 and
113): insertion sort by code-point order. -/
def sortStr : List String → List String
  | [] => []
  | a :: l => insertStr a (sortStr l)

/-- Model of pandas Series.unique (App.py lines 101 and 113): keep the
first occurrence of every value, in order of appearance. -/
def dedupAcc (seen : List String) : List String → List String
  | [] => []
  | a :: l => if seen.contains a then dedupAcc seen l else a :: dedupAcc (a :: seen) l

/-- Model of the composite sorted(series.unique()) used for the state
and district option lists in the sidebar. -/
def sortedUnique (l : List String) : List String :=
  sortStr (dedupAcc [] l)

/-- Model of pandas Series.min on the date column (App.py line 96); the
value on an empty column is never used by the script because the widget
is only built when the table is nonempty. -/
def listMin : List Int → Int
  | [] => 0
  | [x] => x
  | x :: y :: l => min x (listMin (y :: l))

/-- Model of pandas Series.max on the date column (App.py line 97). -/
def listMax : List Int → Int
  | [] => 0
  | [x] => x
  | x :: y :: l => max x (listMax (y :: l))

/-- One row of the primary fact table as read from cleaned_data.parquet,
with the nine columns of the fallback schema of App.py line 49. -/
structure RawFactRow where
  state : String
  district : String
  date : Int
  total_enrollment : Int
  children_enrollment : Int
  age_0_5 : Int
  age_5_17 : Int
  age_18_greater : Int
  pincode : Int
deriving DecidableEq, Repr

/-- One row of the normalized fact table: the nine raw columns plus the
derived state_for_map alias column added at App.py line 77. -/
structure CleanFactRow where
  state : String
  district : String
  date : Int
  total_enrollment : Int
  children_enrollment : Int
  age_0_5 : Int
  age_5_17 : Int
  age_18_greater : Int
  pincode : Int
  state_for_map : String
deriving DecidableEq, Repr

/-- One row of the secondary summary table district_priority.csv
(App.py line 52), with the columns the views consume. -/
structure SumRow where
  state : String
  district : String
  priority_score : Int
  total : Int
  children : Int
  pincodes : Int
deriving DecidableEq, Repr

/-- The nine-column fallback schema of App.py line 49. -/
def FACT_SCHEMA : List String :=
  ["state", "district", "date", "total_enrollment", "children_enrollment",
   "age_0_5", "age_5_17", "age_18_greater", "pincode"]

/-- The column names of the summary source consumed by the views. -/
def SUM_SCHEMA : List String :=
  ["state", "district", "priority_score", "total", "children", "pincodes"]

/-- The canonical whitelist of 36 administrative regions
(App.py lines 61 to 71). -/
def ALL_VALID : List String :=
  ["Andhra Pradesh", "Arunachal Pradesh", "Assam", "Bihar", "Chhattisgarh",
   "Goa", "Gujarat", "Haryana", "Himachal Pradesh", "Jharkhand",
   "Karnataka", "Kerala", "Madhya Pradesh", "Maharashtra", "Manipur",
   "Meghalaya", "Mizoram", "Nagaland", "Odisha", "Punjab",
   "Rajasthan", "Sikkim", "Tamil Nadu", "Telangana", "Tripura",
   "Uttar Pradesh", "Uttarakhand", "West Bengal",
   "Andaman and Nicobar Islands", "Chandigarh",
   "Dadra and Nagar Haveli and Daman and Diu",
   "Delhi", "Jammu and Kashmir", "Ladakh", "Lakshadweep", "Puducherry"]

/-- The static geojson alias map of App.py line 73, applied with pandas
Series.replace: values with a key in the map are replaced, all other
values are left unchanged. -/
def geojson_map (s : String) : String :=
  if s = "Andaman and Nicobar Islands" then "Andaman & Nicobar"
  else if s = "Jammu and Kashmir" then "Jammu & Kashmir"
  else s

/-- App.py line 75: strip the state value of a fact row. -/
def stripStateRow (r : RawFactRow) : RawFactRow :=
  { r with state := pyStrip r.state }

/-- App.py line 77: extend a surviving fact row with the derived
state_for_map column, the state value sent through the alias map. -/
def addStateForMap (r : RawFactRow) : CleanFactRow :=
  { state := r.state, district := r.district, date := r.date,
    total_enrollment := r.total_enrollment,
    children_enrollment := r.children_enrollment,
    age_0_5 := r.age_0_5, age_5_17 := r.age_5_17,
    age_18_greater := r.age_18_greater, pincode := r.pincode,
    state_for_map := geojson_map r.state }

/-- A pandas DataFrame holding fact rows: its column-name list together
with its typed rows. -/
structure FactFrame where
  cols : List String
  rows : List CleanFactRow
deriving DecidableEq, Repr

/-- A pandas DataFrame holding summary rows. -/
structure SumFrame where
  cols : List String
  rows : List SumRow
deriving DecidableEq, Repr

/-- Model of load_and_clean_data (App.py lines 42 to 81).  The primary
argument is the outcome of the parquet read: some rows on success, none
when the read raised and line 49 installed the empty fallback frame with
the nine FACT_SCHEMA columns.  The secondary argument is the outcome of
the csv read: some rows on success, none when line 54 installed the
empty frame pd.DataFrame(), which has no columns at all.  Line 57 lower
cases the fact column names, the identity here because FACT_SCHEMA is
already lower case; line 59 does the same for a nonempty summary frame.
Line 75 strips the state strings, line 76 keeps exactly the rows whose
state is in ALL_VALID, line 77 adds the state_for_map column (also to
the column list of the frame), and line 79 parses the date column, the
identity here because dates are already typed.  The summary frame is
returned untouched apart from the column case-folding. -/
def load_and_clean_data (primary : Option (List RawFactRow))
    (secondary : Option (List SumRow)) : FactFrame × SumFrame :=
  let df0 : List RawFactRow :=
    match primary with
    | some rows => rows
    | none => []
  let dfStripped := df0.map stripStateRow
  let dfValid := dfStripped.filter (fun r => ALL_VALID.contains r.state)
  let fact : FactFrame :=
    { cols := FACT_SCHEMA ++ ["state_for_map"],
      rows := dfValid.map addStateForMap }
  let summary : SumFrame :=
    match secondary with
    | some srows => { cols := SUM_SCHEMA, rows := srows }
    | none => { cols := [], rows := [] }
  (fact, summary)

/-- App.py line 101: the sorted unique state values of the fact table,
offered by the state multiselect and used by Select All States. -/
def all_states (df_clean : List CleanFactRow) : List String :=
  sortedUnique (df_clean.map (fun r => r.state))

/-- App.py line 113: the sorted unique district values of the rows whose
state is selected, offered by the district multiselect and used by
Select All Districts. -/
def relevant_districts (df_clean : List CleanFactRow)
    (selected_states : List String) : List String :=
  sortedUnique ((df_clean.filter
    (fun r => selected_states.contains r.state)).map (fun r => r.district))

/-- Model of the global filter block (App.py lines 125 to 146).  The
two-element pattern is the len(selected_date_range) == 2 branch: the
fact table is cut down by the conjunctive mask of lines 128 to 133 and
the summary table, when nonempty, by state and district membership
(lines 137 to 143); any other length of the date range takes the else
branch of lines 144 to 146 and returns both tables unfiltered. -/
def applyGlobalFilters (df_clean : List CleanFactRow)
    (district_summary : List SumRow) (selected_date_range : List Int)
    (selected_states selected_districts : List String) :
    List CleanFactRow × List SumRow :=
  match selected_date_range with
  | [start_dt, end_dt] =>
    let df_final := df_clean.filter (fun r =>
      selected_states.contains r.state &&
      selected_districts.contains r.district &&
      decide (start_dt ≤ r.date) &&
      decide (r.date ≤ end_dt))
    let dist_final :=
      if district_summary.isEmpty then []
      else district_summary.filter (fun r =>
        selected_states.contains r.state &&
        selected_districts.contains r.district)
    (df_final, dist_final)
  | _ => (df_clean, district_summary)

/-- Outcome of one script run: either the degraded no-data warning of
App.py line 153, or a rendered chart view of the selected menu entry. -/
inductive Outcome where
  | noData
  | rendered
deriving DecidableEq, Repr

/-- Model of one top-to-bottom run of the script body (App.py lines 83
to 153).  dateRangeValue is the value the date_input control would hold;
the control, and with it the Python name selected_date_range, only comes
into existence when the fact table is nonempty (line 95), so the name is
modelled by an Option that is none otherwise.  Reading an unassigned
Python name at line 125 raises NameError, modelled by Except.error.  The
state and district selections follow the Select All checkboxes of lines
102 to 119. -/
def runSession (primary : Option (List RawFactRow))
    (secondary : Option (List SumRow)) (dateRangeValue : List Int)
    (select_all_states : Bool) (pickedStates : List String)
    (select_all_districts : Bool) (pickedDistricts : List String) :
    Except String Outcome :=
  let loaded := load_and_clean_data primary secondary
  let df_clean := loaded.1.rows
  let district_summary := loaded.2.rows
  let selected_date_range : Option (List Int) :=
    if df_clean.isEmpty then none else some dateRangeValue
  let states := all_states df_clean
  let selected_states := if select_all_states then states else pickedStates
  let rel := relevant_districts df_clean selected_states
  let selected_districts := if select_all_districts then rel else pickedDistricts
  match selected_date_range with
  | none => Except.error "NameError: name selected_date_range is not defined"
  | some dr =>
    let filtered := applyGlobalFilters df_clean district_summary dr
      selected_states selected_districts
    Except.ok (if filtered.1.isEmpty then Outcome.noData else Outcome.rendered)

/-- Model of the Performance Matrix view (App.py lines 243 to 245): when
the filtered summary table is nonempty the scatter chart receives it
whole; when it is empty no chart is drawn. -/
def performanceMatrixData (dist_final : List SumRow) : Option (List SumRow) :=
  if dist_final.isEmpty then none else some dist_final

/- Helper lemmas about the sidebar option-list combinators. -/

/-- Membership through the insertion step of the sort. -/
theorem mem_insertStr (a x : String) (l : List String) :
    a ∈ insertStr x l ↔ a = x ∨ a ∈ l := by
  induction l with
  | nil => simp [insertStr]
  | cons b l ih =>
    by_cases h : strLe x b
    · simp [insertStr, h]
    · simp [insertStr, h, ih]
      tauto

/-- Sorting does not change membership. -/
theorem mem_sortStr (a : String) (l : List String) :
    a ∈ sortStr l ↔ a ∈ l := by
  induction l with
  | nil => simp [sortStr]
  | cons b l ih => simp [sortStr, mem_insertStr, ih]

/-- Membership in the first-occurrence dedup with accumulator. -/
theorem mem_dedupAcc (a : String) (seen l : List String) :
    a ∈ dedupAcc seen l ↔ (a ∈ l ∧ a ∉ seen) := by
  induction l generalizing seen with
  | nil => simp [dedupAcc]
  | cons b l ih =>
    by_cases hb : seen.contains b
    · have hbseen : b ∈ seen := by simpa using hb
      rw [dedupAcc, if_pos hb, ih]
      constructor
      · rintro ⟨hl, hs⟩
        exact ⟨List.mem_cons_of_mem _ hl, hs⟩
      · rintro ⟨hbl, hs⟩
        rcases List.mem_cons.mp hbl with rfl | hl
        · exact absurd hbseen hs
        · exact ⟨hl, hs⟩
    · have hb2 : b ∉ seen := by simpa using hb
      rw [dedupAcc, if_neg hb]
      simp only [List.mem_cons, ih, List.mem_cons]
      constructor
      · rintro (rfl | ⟨hl, hns⟩)
        · exact ⟨Or.inl rfl, hb2⟩
        · exact ⟨Or.inr hl, fun hs => hns (Or.inr hs)⟩
      · rintro ⟨rfl | hl, hs⟩
        · exact Or.inl rfl
        · by_cases hab : a = b
          · exact Or.inl hab
          · refine Or.inr ⟨hl, ?_⟩
            rintro (rfl | hmem)
            · exact hab rfl
            · exact hs hmem

/-- The sorted unique option list has the same members as its input. -/
theorem mem_sortedUnique (a : String) (l : List String) :
    a ∈ sortedUnique l ↔ a ∈ l := by
  simp [sortedUnique, mem_sortStr, mem_dedupAcc]

/-- The column minimum bounds every member from below. -/
theorem listMin_le_of_mem (l : List Int) (x : Int) (hx : x ∈ l) :
    listMin l ≤ x := by
  induction l with
  | nil => cases hx
  | cons a l ih =>
    cases l with
    | nil =>
      rcases List.mem_cons.mp hx with rfl | h
      · simp [listMin]
      · cases h
    | cons b m =>
      rw [listMin]
      rcases List.mem_cons.mp hx with rfl | h
      · exact min_le_left _ _
      · exact le_trans (min_le_right _ _) (ih h)

/-- The column maximum bounds every member from above. -/
theorem le_listMax_of_mem (l : List Int) (x : Int) (hx : x ∈ l) :
    x ≤ listMax l := by
  induction l with
  | nil => cases hx
  | cons a l ih =>
    cases l with
    | nil =>
      rcases List.mem_cons.mp hx with rfl | h
      · simp [listMax]
      · cases h
    | cons b m =>
      rw [listMax]
      rcases List.mem_cons.mp hx with rfl | h
      · exact le_max_left _ _
      · exact le_trans (ih h) (le_max_right _ _)

/- Sample rows used by the concrete witnesses and counterexamples. -/

/-- A raw fact row whose state value carries surrounding whitespace and
strips to a canonical region. -/
def keralaRaw : RawFactRow :=
  { state := " Kerala ", district := "Ernakulam", date := 10,
    total_enrollment := 120, children_enrollment := 45, age_0_5 := 20,
    age_5_17 := 25, age_18_greater := 75, pincode := 682001 }

/-- The normalized row the loader produces from keralaRaw. -/
def keralaClean : CleanFactRow :=
  { state := "Kerala", district := "Ernakulam", date := 10,
    total_enrollment := 120, children_enrollment := 45, age_0_5 := 20,
    age_5_17 := 25, age_18_greater := 75, pincode := 682001,
    state_for_map := "Kerala" }

/-- A raw fact row carrying the known union-territory naming variant
that the alias map itself produces for Jammu and Kashmir. -/
def jammuVariantRaw : RawFactRow :=
  { state := "Jammu & Kashmir", district := "Srinagar", date := 3,
    total_enrollment := 50, children_enrollment := 20, age_0_5 := 8,
    age_5_17 := 12, age_18_greater := 30, pincode := 190001 }

/-- A raw fact row carrying the known naming variant for the Andaman
and Nicobar Islands. -/
def andamanVariantRaw : RawFactRow :=
  { state := "Andaman & Nicobar", district := "South Andaman", date := 4,
    total_enrollment := 30, children_enrollment := 10, age_0_5 := 4,
    age_5_17 := 6, age_18_greater := 20, pincode := 744101 }

/-- A summary row for the same region and district as keralaClean. -/
def prioRow : SumRow :=
  { state := "Kerala", district := "Ernakulam", priority_score := 88,
    total := 500, children := 200, pincodes := 12 }

/-- A summary row with a non-positive pincode count. -/
def zeroPincodeRow : SumRow :=
  { state := "Kerala", district := "Ernakulam", priority_score := 90,
    total := 100, children := 40, pincodes := 0 }

/-- A summary row whose district is the literal placeholder unknown. -/
def unknownDistrictRow : SumRow :=
  { state := "Kerala", district := "unknown", priority_score := 5,
    total := 10, children := 2, pincodes := 1 }

/- Claim theorems. -/

/-- Claim C1: the spec demands that a missing primary fact source
degrades to the rendered no-data warning without an unhandled exception;
the script instead raises NameError at line 125, because the name
selected_date_range is only assigned (line 98) when the fact table is
nonempty.  This theorem evaluates the session at the failing input: the
primary read fails, the loader returns the empty fallback fact table,
and the run ends in the modelled NameError instead of Except.ok. -/
theorem c1_empty_source_raises_name_error :
    runSession none none [] true [] true [] =
      Except.error "NameError: name selected_date_range is not defined" := rfl

/-- Claim C2: every row of the normalized fact table returned by the
loader has a state value belonging to the canonical whitelist, and that
whitelist has exactly 36 entries. -/
theorem c2_region_whitelist (primary : Option (List RawFactRow))
    (secondary : Option (List SumRow)) (r : CleanFactRow)
    (hr : r ∈ (load_and_clean_data primary secondary).1.rows) :
    ALL_VALID.length = 36 ∧ r.state ∈ ALL_VALID := by
  refine ⟨rfl, ?_⟩
  simp only [load_and_clean_data] at hr
  rcases List.mem_map.mp hr with ⟨raw, hraw, rfl⟩
  have h := (List.mem_filter.mp hraw).2
  simpa [addStateForMap] using h

/-- Concrete instance of claim C2 at a one-row input table. -/
theorem c2_region_whitelist_witness :
    ALL_VALID.length = 36 ∧ keralaClean.state ∈ ALL_VALID :=
  c2_region_whitelist (some [keralaRaw]) none keralaClean (by decide)

/-- Claim C3 as stated is false of the code: the only static map in the
script is the geojson alias map of line 73, and it is applied at line 77
only after the whitelist filter of line 76, so input rows named by the
known variant spellings are dropped rather than corrected.  Feeding both
variant-named rows to the loader leaves the normalized table empty. -/
theorem c3_claim_false :
    (load_and_clean_data (some [jammuVariantRaw, andamanVariantRaw])
      none).1.rows = [] := by decide

/-- Claim C3 amended: the static map is applied after the whitelist
filter, deriving the state_for_map alias of every surviving row from its
already canonical state value. -/
theorem c3_alias_after_whitelist (primary : Option (List RawFactRow))
    (secondary : Option (List SumRow)) (r : CleanFactRow)
    (hr : r ∈ (load_and_clean_data primary secondary).1.rows) :
    r.state_for_map = geojson_map r.state := by
  simp only [load_and_clean_data] at hr
  rcases List.mem_map.mp hr with ⟨raw, hraw, rfl⟩
  rfl

/-- Concrete instance of the amended claim C3. -/
theorem c3_alias_after_whitelist_witness :
    keralaClean.state_for_map = geojson_map keralaClean.state :=
  c3_alias_after_whitelist (some [keralaRaw]) none keralaClean (by decide)

/-- Claim C4: applying the global filter with all states of the table,
all of their districts, and the closed interval from the minimum to the
maximum date of the table returns the fact table row for row. -/
theorem c4_widest_filter_identity (df_clean : List CleanFactRow)
    (district_summary : List SumRow) :
    (applyGlobalFilters df_clean district_summary
      [listMin (df_clean.map (fun r => r.date)),
       listMax (df_clean.map (fun r => r.date))]
      (all_states df_clean)
      (relevant_districts df_clean (all_states df_clean))).1 = df_clean := by
  simp only [applyGlobalFilters]
  refine List.filter_eq_self.mpr ?_
  intro r hr
  have hstate : r.state ∈ all_states df_clean := by
    rw [all_states, mem_sortedUnique]
    exact List.mem_map.mpr ⟨r, hr, rfl⟩
  have hstateb : (all_states df_clean).contains r.state = true := by
    simpa using hstate
  have hdist : r.district ∈ relevant_districts df_clean (all_states df_clean) := by
    rw [relevant_districts, mem_sortedUnique]
    refine List.mem_map.mpr ⟨r, ?_, rfl⟩
    exact List.mem_filter.mpr ⟨hr, hstateb⟩
  have hdistb : (relevant_districts df_clean (all_states df_clean)).contains
      r.district = true := by
    simpa using hdist
  have hmin := listMin_le_of_mem (df_clean.map (fun r => r.date)) r.date
    (List.mem_map.mpr ⟨r, hr, rfl⟩)
  have hmax := le_listMax_of_mem (df_clean.map (fun r => r.date)) r.date
    (List.mem_map.mpr ⟨r, hr, rfl⟩)
  simp [hstate, hdist, hmin, hmax]

/-- Claim C5: a date-range value with fewer than two endpoints skips the
filter step, and both tables come back unfiltered. -/
theorem c5_short_date_range_skips_filter (df_clean : List CleanFactRow)
    (district_summary : List SumRow) (selected_date_range : List Int)
    (selected_states selected_districts : List String)
    (h : selected_date_range.length < 2) :
    applyGlobalFilters df_clean district_summary selected_date_range
      selected_states selected_districts = (df_clean, district_summary) := by
  cases selected_date_range with
  | nil => rfl
  | cons a t =>
    cases t with
    | nil => rfl
    | cons b u =>
      exfalso
      simp [List.length_cons] at h
      omega

/-- Concrete instance of claim C5 with a one-endpoint date range. -/
theorem c5_short_date_range_skips_filter_witness :
    applyGlobalFilters [keralaClean] [prioRow] [5] ["Kerala"] ["Ernakulam"]
      = ([keralaClean], [prioRow]) :=
  c5_short_date_range_skips_filter [keralaClean] [prioRow] [5] ["Kerala"]
    ["Ernakulam"] (by decide)

/-- Claim C6: with a two-endpoint date range, an empty state selection
or an empty district selection makes the filtered fact table empty. -/
theorem c6_empty_selection_yields_empty (df_clean : List CleanFactRow)
    (district_summary : List SumRow) (start_dt end_dt : Int)
    (selected_states selected_districts : List String)
    (h : selected_states = [] ∨ selected_districts = []) :
    (applyGlobalFilters df_clean district_summary [start_dt, end_dt]
      selected_states selected_districts).1 = [] := by
  simp only [applyGlobalFilters]
  refine List.filter_eq_nil_iff.mpr ?_
  intro r hr
  rcases h with rfl | rfl <;> simp

/-- Concrete instance of claim C6 with no state selected. -/
theorem c6_empty_selection_yields_empty_witness :
    (applyGlobalFilters [keralaClean] [prioRow] [0, 20] [] ["Ernakulam"]).1
      = [] :=
  c6_empty_selection_yields_empty [keralaClean] [prioRow] 0 20 [] ["Ernakulam"]
    (Or.inl rfl)

/-- Claim C7 as stated is false in its schema clause: when the primary
read fails the loader does return an empty fact table, but its schema is
not exactly the nine fallback columns of line 49, because line 77 adds
the derived state_for_map column before the frame is returned. -/
theorem c7_claim_false :
    (load_and_clean_data none none).1.cols ≠ FACT_SCHEMA := by decide

/-- Claim C7 amended: for every combination of read outcomes the loader
returns two tables; a failed primary read yields an empty fact table
whose schema is the nine fallback columns plus state_for_map, and a
failed secondary read yields an empty summary table. -/
theorem c7_fallback_tables (secondary : Option (List SumRow))
    (primary : Option (List RawFactRow)) :
    (load_and_clean_data none secondary).1.rows = [] ∧
    (load_and_clean_data none secondary).1.cols
      = FACT_SCHEMA ++ ["state_for_map"] ∧
    (load_and_clean_data primary none).2.rows = [] := by
  refine ⟨rfl, rfl, ?_⟩
  cases primary <;> rfl

/-- Claim C8 as stated is false of the code: the Performance Matrix view
hands the filtered summary table to the scatter chart without excluding
rows with non-positive pincode or child counts; a row with pincode count
zero is part of the plotted data. -/
theorem c8_claim_false :
    zeroPincodeRow ∈ (performanceMatrixData [zeroPincodeRow]).getD [] ∧
    zeroPincodeRow.pincodes ≤ 0 := by decide

/-- Claim C8 amended: for every nonempty filtered summary table the
scatter chart receives the whole table; no positivity exclusion is
performed. -/
theorem c8_scatter_no_exclusion (dist_final : List SumRow)
    (h : dist_final ≠ []) :
    performanceMatrixData dist_final = some dist_final := by
  simp [performanceMatrixData, h]

/-- Concrete instance of the amended claim C8: the degenerate row is
handed to the chart. -/
theorem c8_scatter_no_exclusion_witness :
    performanceMatrixData [zeroPincodeRow] = some [zeroPincodeRow] :=
  c8_scatter_no_exclusion [zeroPincodeRow] (by decide)

/-- Claim C9 as stated is false of the code: the loader performs no
placeholder-district filtering, so a summary row whose district is the
literal string unknown survives normalization. -/
theorem c9_claim_false :
    unknownDistrictRow ∈
      (load_and_clean_data none (some [unknownDistrictRow])).2.rows ∧
    unknownDistrictRow.district = "unknown" := by decide

/-- Claim C9 amended: the loader returns the summary rows exactly as
read; apart from column case-folding the summary table is untouched, so
placeholder district rows are retained. -/
theorem c9_summary_rows_unchanged (primary : Option (List RawFactRow))
    (srows : List SumRow) :
    (load_and_clean_data primary (some srows)).2.rows = srows := by
  cases primary <;> rfl

/-- Claim C10: with a two-endpoint date range and Select All Districts,
every row of the filtered summary table has a district that occurs in
the fact table under one of the selected states, because the district
selection is derived from the fact table alone and the summary filter
tests membership in it. -/
theorem c10_summary_district_scoped (df_clean : List CleanFactRow)
    (district_summary : List SumRow) (start_dt end_dt : Int)
    (selected_states : List String) (r : SumRow)
    (hr : r ∈ (applyGlobalFilters df_clean district_summary
      [start_dt, end_dt] selected_states
      (relevant_districts df_clean selected_states)).2) :
    ∃ row ∈ df_clean, row.state ∈ selected_states
      ∧ row.district = r.district := by
  simp only [applyGlobalFilters] at hr
  by_cases hds : district_summary.isEmpty
  · rw [if_pos hds] at hr
    cases hr
  · rw [if_neg hds] at hr
    have hp := (List.mem_filter.mp hr).2
    simp only [Bool.and_eq_true] at hp
    have hd : r.district ∈ relevant_districts df_clean selected_states := by
      simpa using hp.2
    rw [relevant_districts, mem_sortedUnique] at hd
    rcases List.mem_map.mp hd with ⟨row, hrow, hdd⟩
    have hrow2 := List.mem_filter.mp hrow
    refine ⟨row, hrow2.1, ?_, hdd⟩
    simpa using hrow2.2

/-- Concrete instance of claim C10 at a matching one-row pair of
tables. -/
theorem c10_summary_district_scoped_witness :
    ∃ row ∈ [keralaClean], row.state ∈ ["Kerala"]
      ∧ row.district = prioRow.district :=
  c10_summary_district_scoped [keralaClean] [prioRow] 0 20 ["Kerala"] prioRow
    (by decide)
